import Mathlib

/-!
Verification development for the LanguageCoach backend core
(conversation aggregate, feedback entities, send-message orchestration,
LLM provider registry, feedback-analysis parsing).

The Python source is shallowly embedded: entities become structures,
methods become pure functions, raised domain exceptions become `Except`
errors, `datetime.now(UTC)` and `uuid4()` become explicit `Nat`
parameters supplied by the caller, and the abstract ports (repository,
conversation partner, feedback provider) become function parameters whose
observable effects (save calls, yielded fragments, analyzer invocations)
are recorded in explicit run traces.
-/

namespace LanguageCoach

/-- Python `str.strip()`: drop leading and trailing whitespace.  (Defined
over the character list so that concrete instances evaluate; the
byte-position-based `String.trim` does not reduce in the kernel.) -/
def pyStrip (s : String) : String :=
  String.mk
    (((s.data.dropWhile Char.isWhitespace).reverse.dropWhile
        Char.isWhitespace).reverse)

/-- Python `str.lower()`: lowercase every character. -/
def pyLower (s : String) : String :=
  String.mk (s.data.map Char.toLower)

/-- Python `str.startswith("/")`. -/
def startsWithSlash (s : String) : Bool :=
  match s.data with
  | [] => false
  | c :: _ => c = '/'

/-! ## Value objects (src/core/value_objects.py) -/

/-- `ConversationStatus` enum. -/
inductive ConversationStatus where
  | ACTIVE
  | COMPLETED
  | ARCHIVED
  deriving DecidableEq, Repr

/-- `ConversationTone` enum. -/
inductive ConversationTone where
  | FORMAL
  | FRIENDLY
  | ENCOURAGING
  | PATIENT
  deriving DecidableEq, Repr

/-- `CorrectionType` enum. -/
inductive CorrectionType where
  | GRAMMAR
  | VOCABULARY
  | PHRASING
  deriving DecidableEq, Repr

/-- `Correction` frozen dataclass. -/
structure Correction where
  original : String
  corrected : String
  explanation : String
  correction_type : CorrectionType
  deriving DecidableEq, Repr

/-! ## Domain exceptions (src/core/exceptions.py) — the kinds the claims
distinguish. -/

/-- Domain exception kinds raised by entity invariants and lookups. -/
inductive DomainError where
  | invalidContext
  | invalidMessageContent
  | invalidConversationState
  | invalidFeedback
  | messageNotFound
  | feedbackNotFound
  deriving DecidableEq, Repr

/-! ## Feedback entity (src/core/entities/feedback.py) -/

/-- `Feedback` dataclass. `id`/`created_at` stand in for `uuid4()` /
`datetime.now(UTC)` values. -/
structure Feedback where
  id : Nat
  corrections : List Correction := []
  suggestions : List String := []
  created_at : Nat
  user_rating : Option Bool := none
  user_comment : Option String := none
  deriving DecidableEq, Repr

/-- `Feedback.create`: factory; performs no validation, generates id and
timestamp (passed explicitly here). -/
def Feedback.create (corrections : List Correction) (suggestions : List String)
    (id now : Nat) : Feedback :=
  { id := id
    corrections := corrections
    suggestions := suggestions
    created_at := now
    user_rating := none
    user_comment := none }

/-- `Feedback.reconstitute`: trusting loader, plain field assignment. -/
def Feedback.reconstitute (id : Nat) (corrections : List Correction)
    (suggestions : List String) (created_at : Nat)
    (user_rating : Option Bool := none) (user_comment : Option String := none) :
    Feedback :=
  { id := id
    corrections := corrections
    suggestions := suggestions
    created_at := created_at
    user_rating := user_rating
    user_comment := user_comment }

/-- Python truthiness of an `Optional[str]`: `None` and `""` are falsy. -/
def strTruthy : Option String → Bool
  | none => false
  | some s => s != ""

/-- `Feedback.rate`: sets `user_rating := rating`; then
`if not rating and comment: user_comment = comment`
`elif rating: user_comment = None`
(a falsy `comment` with `rating=False` leaves the prior comment in place). -/
def Feedback.rate (f : Feedback) (rating : Bool)
    (comment : Option String := none) : Feedback :=
  let f1 := { f with user_rating := some rating }
  if !rating && strTruthy comment then { f1 with user_comment := comment }
  else if rating then { f1 with user_comment := none }
  else f1

/-! ## Message entity (src/core/entities/message.py) -/

/-- `MessageRole` enum. -/
inductive MessageRole where
  | USER
  | COACH
  deriving DecidableEq, Repr

/-- `Message` dataclass. -/
structure Message where
  id : Nat
  content : String
  role : MessageRole
  created_at : Nat
  feedback : Option Feedback := none
  deriving DecidableEq, Repr

/-- `Message.create`: raises `InvalidMessageContentError` when
`not content or not content.strip()`. -/
def Message.create (content : String) (role : MessageRole) (id now : Nat) :
    Except DomainError Message :=
  if content = "" ∨ pyStrip content = "" then .error .invalidMessageContent
  else .ok
    { id := id
      content := content
      role := role
      created_at := now
      feedback := none }

/-- `Message.reconstitute`: trusting loader, plain field assignment. -/
def Message.reconstitute (id : Nat) (content : String) (role : MessageRole)
    (created_at : Nat) (feedback : Option Feedback := none) : Message :=
  { id := id
    content := content
    role := role
    created_at := created_at
    feedback := feedback }

/-- `Message.attach_feedback`: raises unless the message is USER-authored
and carries no feedback yet; on success sets the feedback field. -/
def Message.attach_feedback (m : Message) (fb : Feedback) :
    Except DomainError Message :=
  if m.role ≠ .USER then .error .invalidMessageContent
  else if m.feedback.isSome then .error .invalidMessageContent
  else .ok { m with feedback := some fb }

/-! ## ConversationSummary entity (src/core/entities/conversation_summary.py) -/

/-- `ConversationSummary` dataclass. -/
structure ConversationSummary where
  id : Nat
  fluency_score : Int
  strengths : List String := []
  weaknesses : List String := []
  overall_remarks : String := ""
  created_at : Nat
  deriving DecidableEq, Repr

/-- `ConversationSummary.create`: raises `InvalidFeedbackError` unless
`0 <= fluency_score <= 100`. -/
def ConversationSummary.create (fluency_score : Int)
    (strengths weaknesses : List String) (overall_remarks : String)
    (id now : Nat) : Except DomainError ConversationSummary :=
  if ¬ (0 ≤ fluency_score ∧ fluency_score ≤ 100) then .error .invalidFeedback
  else .ok
    { id := id
      fluency_score := fluency_score
      strengths := strengths
      weaknesses := weaknesses
      overall_remarks := overall_remarks
      created_at := now }

/-- `ConversationSummary.reconstitute`: trusting loader. -/
def ConversationSummary.reconstitute (id : Nat) (fluency_score : Int)
    (strengths weaknesses : List String) (overall_remarks : String)
    (created_at : Nat) : ConversationSummary :=
  { id := id
    fluency_score := fluency_score
    strengths := strengths
    weaknesses := weaknesses
    overall_remarks := overall_remarks
    created_at := created_at }

/-! ## Conversation aggregate (src/core/entities/conversation.py) -/

/-- `Conversation` dataclass (aggregate root). -/
structure Conversation where
  id : Nat
  context_topic : String
  messages : List Message := []
  created_at : Nat
  updated_at : Nat
  status : ConversationStatus := .ACTIVE
  tone : ConversationTone := .FRIENDLY
  summary : Option ConversationSummary := none
  deriving DecidableEq, Repr

/-- `Conversation.create`: raises `InvalidContextError` when
`not context_topic or not context_topic.strip()`; stores the stripped
topic, empty message list, equal timestamps, ACTIVE status. -/
def Conversation.create (context_topic : String)
    (tone : ConversationTone := .FRIENDLY) (id now : Nat) :
    Except DomainError Conversation :=
  if context_topic = "" ∨ pyStrip context_topic = "" then .error .invalidContext
  else .ok
    { id := id
      context_topic := pyStrip context_topic
      messages := []
      created_at := now
      updated_at := now
      status := .ACTIVE
      tone := tone
      summary := none }

/-- `Conversation.reconstitute`: trusting loader, plain field assignment. -/
def Conversation.reconstitute (id : Nat) (context_topic : String)
    (messages : List Message) (created_at updated_at : Nat)
    (status : ConversationStatus := .ACTIVE)
    (tone : ConversationTone := .FRIENDLY)
    (summary : Option ConversationSummary := none) : Conversation :=
  { id := id
    context_topic := context_topic
    messages := messages
    created_at := created_at
    updated_at := updated_at
    status := status
    tone := tone
    summary := summary }

/-- `Conversation.archive`: fails when already ARCHIVED or when COMPLETED;
otherwise sets ARCHIVED and touches `updated_at` (the `now` argument is
the `datetime.now(UTC)` reading inside `_touch`). -/
def Conversation.archive (c : Conversation) (now : Nat) :
    Except DomainError Conversation :=
  if c.status = .ARCHIVED then .error .invalidConversationState
  else if c.status = .COMPLETED then .error .invalidConversationState
  else .ok { c with status := .ARCHIVED, updated_at := now }

/-- `Conversation.restore`: fails when already ACTIVE; otherwise sets
ACTIVE and touches `updated_at`. -/
def Conversation.restore (c : Conversation) (now : Nat) :
    Except DomainError Conversation :=
  if c.status = .ACTIVE then .error .invalidConversationState
  else .ok { c with status := .ACTIVE, updated_at := now }

/-- `Conversation.end`: fails when already COMPLETED or when ARCHIVED;
otherwise sets COMPLETED and touches `updated_at`. (`end` is a Lean
keyword, hence the trailing underscore.) -/
def Conversation.end_ (c : Conversation) (now : Nat) :
    Except DomainError Conversation :=
  if c.status = .COMPLETED then .error .invalidConversationState
  else if c.status = .ARCHIVED then .error .invalidConversationState
  else .ok { c with status := .COMPLETED, updated_at := now }

/-- `Conversation.add_message`: `Message.create` (validating), append to
`messages`, touch `updated_at`; returns the new message. `mid`/`now` are
the generated id and clock reading. -/
def Conversation.add_message (c : Conversation) (content : String)
    (role : MessageRole) (mid now : Nat) :
    Except DomainError (Message × Conversation) :=
  match Message.create content role mid now with
  | .error d => .error d
  | .ok m => .ok (m, { c with messages := c.messages ++ [m], updated_at := now })

/-! ## SendMessage use case (src/application/use_cases/send_message.py)

The repository and the conversation partner are abstract ports; a run is
modelled from the conversation returned by `repository.get_active` and
from the provider stream's behaviour (the list of fragments it yields
before either completing normally or raising an exception of abstract
type `ε`).  The trace records every argument passed to
`repository.save`, every fragment yielded to the caller, the final
in-memory aggregate and the exception, if any, that propagates. -/

/-- Input DTO for `SendMessage` (conversation id plus message content). -/
structure SendMessageInput where
  conversation_id : Nat
  content : String
  deriving DecidableEq, Repr

/-- An exception propagating out of a `SendMessage` run: either a domain
invariant violation raised by an entity, or the provider's own exception
propagated unwrapped. -/
inductive RunError (ε : Type) where
  | domain (d : DomainError)
  | provider (e : ε)
  deriving DecidableEq, Repr

/-- Observable trace of one `execute_stream` run consumed to the end. -/
structure StreamRun (ε : Type) where
  /-- fragments forwarded to the caller, in order -/
  yielded : List String
  /-- snapshots passed to `repository.save`, in call order -/
  saves : List Conversation
  /-- final state of the in-memory aggregate -/
  conv : Conversation
  /-- the exception that propagates, if any -/
  raised : Option (RunError ε)
  deriving Repr

/-- `SendMessage.execute_stream`: add + save the user message (commit
point #1), forward every fragment while accumulating it, then on normal
completion append the joined buffer as one coach message and save again
only when the buffer is non-empty; a mid-stream provider exception
propagates unwrapped after commit point #1 with no further effect.
`fragments` is the list of fragments the provider yields before either
completing (`streamErr = none`) or raising (`streamErr = some e`). -/
def executeStream {ε : Type} (conversation : Conversation)
    (input_dto : SendMessageInput) (fragments : List String)
    (streamErr : Option ε) (uid unow cid cnow : Nat) : StreamRun ε :=
  match conversation.add_message input_dto.content .USER uid unow with
  | .error d => { yielded := [], saves := [], conv := conversation,
                  raised := some (.domain d) }
  | .ok (_, conv1) =>
    -- commit point #1: user message persisted before streaming
    match streamErr with
    | some e =>
      -- stream raised after yielding `fragments`: propagate as-is
      { yielded := fragments, saves := [conv1], conv := conv1,
        raised := some (.provider e) }
    | none =>
      let coach_content := String.join fragments
      if coach_content = "" then
        -- empty buffer: skip persistence, no coach message
        { yielded := fragments, saves := [conv1], conv := conv1,
          raised := none }
      else
        match conv1.add_message coach_content .COACH cid cnow with
        | .error d =>
          -- Message.create rejects whitespace-only content
          { yielded := fragments, saves := [conv1], conv := conv1,
            raised := some (.domain d) }
        | .ok (_, conv2) =>
          -- commit point #2: coach message persisted
          { yielded := fragments, saves := [conv1, conv2], conv := conv2,
            raised := none }

/-- Observable trace of one synchronous `execute` run. -/
structure SyncRun (ε : Type) where
  /-- snapshots passed to `repository.save`, in call order -/
  saves : List Conversation
  /-- final state of the in-memory aggregate -/
  conv : Conversation
  /-- (user message, coach message) on success, else the exception -/
  result : Except (RunError ε) (Message × Message)
  deriving Repr

/-- `SendMessage.execute`: add the user message, call
`partner.generate_response` (`partnerResp` is its outcome), add the coach
message, then persist once; any exception aborts before the save. -/
def executeSync {ε : Type} (conversation : Conversation)
    (input_dto : SendMessageInput) (partnerResp : Except ε String)
    (uid unow cid cnow : Nat) : SyncRun ε :=
  match conversation.add_message input_dto.content .USER uid unow with
  | .error d => { saves := [], conv := conversation,
                  result := .error (.domain d) }
  | .ok (userMsg, conv1) =>
    match partnerResp with
    | .error e => { saves := [], conv := conv1,
                    result := .error (.provider e) }
    | .ok response_content =>
      match conv1.add_message response_content .COACH cid cnow with
      | .error d => { saves := [], conv := conv1,
                      result := .error (.domain d) }
      | .ok (coachMsg, conv2) =>
        { saves := [conv2], conv := conv2,
          result := .ok (userMsg, coachMsg) }

/-! ## Feedback use case (src/application/use_cases/feedback.py) -/

/-- Observable trace of one `FeedbackUseCases.request` run. -/
structure RequestRun (ε : Type) where
  /-- number of `metrics.record_request()` calls -/
  metric_requests : Nat
  /-- messages passed to `feedback_provider.analyze_message`, in order -/
  analyzer_calls : List Message
  /-- snapshots passed to `repository.save`, in call order -/
  saves : List Conversation
  /-- the produced feedback, or the exception that propagates -/
  result : Except (RunError ε) Feedback
  deriving Repr

/-- Replace the first list element satisfying `p` (the Python code
mutates the located message object inside `conversation.messages`). -/
def replaceFirst (p : Message → Bool) (m' : Message) :
    List Message → List Message
  | [] => []
  | x :: xs => if p x then m' :: xs else x :: replaceFirst p m' xs

/-- `FeedbackUseCases.request`: record the request metric, locate the
message inside the conversation returned by
`repository.get_by_message_id`, call the analyzer on it, attach the
produced feedback (the Message entity's invariant check), persist.
The analyzer port is `analyzer : Message → Except ε Feedback`.  The
`none` branch of the lookup is unreachable under the repository port's
contract (`get_by_message_id` raises `MessageNotFoundError` itself when
no conversation owns the id, so a returned conversation contains the
message). -/
def requestFeedback {ε : Type} (conversation : Conversation)
    (message_id : Nat) (analyzer : Message → Except ε Feedback) :
    RequestRun ε :=
  match conversation.messages.find? (fun m => m.id == message_id) with
  | none => { metric_requests := 1, analyzer_calls := [], saves := [],
              result := .error (.domain .messageNotFound) }
  | some message =>
    match analyzer message with
    | .error e => { metric_requests := 1, analyzer_calls := [message],
                    saves := [], result := .error (.provider e) }
    | .ok feedback =>
      match message.attach_feedback feedback with
      | .error d => { metric_requests := 1, analyzer_calls := [message],
                      saves := [], result := .error (.domain d) }
      | .ok message' =>
        let conversation' :=
          { conversation with
            messages := replaceFirst (fun m => m.id == message_id)
              message' conversation.messages }
        { metric_requests := 1, analyzer_calls := [message],
          saves := [conversation'], result := .ok feedback }

/-! ## Provider models (src/infrastructure/adapters/llm/models.py) -/

/-- `ModelCapability` enum. -/
inductive ModelCapability where
  | CHAT
  | FEEDBACK
  | SUMMARY
  | JSON_MODE
  deriving DecidableEq, Repr

/-- `ModelTier` enum. -/
inductive ModelTier where
  | FAST
  | PRO
  | STANDARD
  deriving DecidableEq, Repr

/-- `ModelInfo` frozen dataclass (`local` is a Lean token, hence
`local_flag`). -/
structure ModelInfo where
  id : String
  name : String
  provider : String
  tier : ModelTier := .STANDARD
  local_flag : Bool := false
  capabilities : List ModelCapability := [.CHAT, .FEEDBACK, .SUMMARY]
  recommended_for : Option ModelCapability := none
  deriving DecidableEq, Repr

/-- `ModelInfo.supports`. -/
def ModelInfo.supports (m : ModelInfo) (c : ModelCapability) : Bool :=
  m.capabilities.contains c

/-! ## Provider registry (src/infrastructure/adapters/llm/registry.py)

`Settings` becomes an abstract type `σ` and `BaseLLMClient` an abstract
type `κ`; a provider descriptor carries the three static methods of
`ProviderProtocol`.  A provider module is the observable effect of
importing it: the providers its `@register_provider` decorators register,
in order, plus whether the module body raises after that.  `ensureLoaded`
translates `_ensure_loaded`'s loop: each module is imported inside its
own try/except, so a raising module contributes its registrations made
before the raise and aborts nothing else, and the registry is marked
loaded regardless. -/

/-- A provider descriptor (`ProviderProtocol`). -/
structure Provider (σ κ : Type) where
  provider_id : String
  provider_name : String
  is_available : σ → Bool
  list_models : List ModelInfo
  create_client : String → σ → κ

/-- Registry state: the provider dict (insertion-ordered, keys unique)
plus the `_loaded` flag. -/
structure RegistryState (σ κ : Type) where
  providers : List (String × Provider σ κ) := []
  loaded : Bool := false

/-- Python dict assignment `d[key] = p`: overwrite in place when the key
exists (keeping its position), else append. -/
def upsert {σ κ : Type} (key : String) (p : Provider σ κ) :
    List (String × Provider σ κ) → List (String × Provider σ κ)
  | [] => [(key, p)]
  | (k, q) :: rest =>
    if k = key then (k, p) :: rest else (k, q) :: upsert key p rest

/-- Importing one provider module: run its registrations in order.
`register` raises `ValueError` when a provider lacks a non-empty
`provider_id`, which aborts that module's import at that point (the
exception is caught per-module by `_ensure_loaded`). -/
def loadModule {σ κ : Type} (ps : List (String × Provider σ κ)) :
    List (Provider σ κ) → List (String × Provider σ κ)
  | [] => ps
  | p :: rest =>
    if p.provider_id = "" then ps
    else loadModule (upsert p.provider_id p ps) rest

/-- A provider module as seen by auto-discovery: the providers its import
registers (in order) and whether the module body raises afterwards
(`ImportError` or any other exception — both are caught individually). -/
structure ProviderModule (σ κ : Type) where
  regs : List (Provider σ κ)
  raises : Bool := false

/-- `ProviderRegistry._ensure_loaded`: a no-op when already loaded;
otherwise import every discovered module (each inside its own
try/except, so `m.raises` has no effect on the resulting catalog) and set
the loaded flag unconditionally. -/
def ensureLoaded {σ κ : Type} (st : RegistryState σ κ)
    (modules : List (ProviderModule σ κ)) : RegistryState σ κ :=
  if st.loaded then st
  else
    { providers := modules.foldl (fun ps m => loadModule ps m.regs) st.providers
      loaded := true }

/-- `ProviderRegistry.get_registered_providers`; returns the value and
the post-call registry state. -/
def getRegisteredProviders {σ κ : Type} (st : RegistryState σ κ)
    (modules : List (ProviderModule σ κ)) :
    List String × RegistryState σ κ :=
  let st' := ensureLoaded st modules
  (st'.providers.map Prod.fst, st')

/-- `ProviderRegistry.is_provider_registered`. -/
def isProviderRegistered {σ κ : Type} (st : RegistryState σ κ)
    (modules : List (ProviderModule σ κ)) (provider_id : String) :
    Bool × RegistryState σ κ :=
  let st' := ensureLoaded st modules
  (st'.providers.any (fun kv => kv.1 == provider_id), st')

/-- `ProviderRegistry.get_available_models`: union of `list_models()`
over providers whose `is_available(settings)` holds, in provider
iteration order, optionally filtered by capability. -/
def getAvailableModels {σ κ : Type} (st : RegistryState σ κ)
    (modules : List (ProviderModule σ κ)) (settings : σ)
    (capability : Option ModelCapability := none) :
    List ModelInfo × RegistryState σ κ :=
  let st' := ensureLoaded st modules
  let models := st'.providers.foldl (fun acc kv =>
    if kv.2.is_available settings then
      acc ++ (match capability with
              | some c => kv.2.list_models.filter (fun m => m.supports c)
              | none => kv.2.list_models)
    else acc) []
  (models, st')

/-- `model_id.split("/", 1)` when it produces two parts: the text before
the first `'/'` and the full remainder after it; `none` when no `'/'`
occurs. -/
def splitFirstSlashAux : List Char → Option (List Char × List Char)
  | [] => none
  | c :: cs =>
    if c = '/' then some ([], cs)
    else match splitFirstSlashAux cs with
         | some (a, b) => some (c :: a, b)
         | none => none

/-- String-level wrapper of `splitFirstSlashAux`. -/
def splitFirstSlash (s : String) : Option (String × String) :=
  (splitFirstSlashAux s.data).map (fun ab => (String.mk ab.1, String.mk ab.2))

/-- The distinct `ValueError` configuration failures `create_client`
raises. -/
inductive RegistryError where
  | invalidModelId
  | unknownProvider
  | providerNotConfigured
  deriving DecidableEq, Repr

/-- `ProviderRegistry.create_client`: ensure loaded, split `model_id` on
the first `/`, reject a missing slash, an empty provider segment, an
empty remainder or a remainder starting with `/`; then reject an
unregistered provider, then an unavailable one; otherwise delegate to
the provider's factory with the full remainder. -/
def createClient {σ κ : Type} (st : RegistryState σ κ)
    (modules : List (ProviderModule σ κ)) (model_id : String)
    (settings : σ) : Except RegistryError κ × RegistryState σ κ :=
  let st' := ensureLoaded st modules
  let r : Except RegistryError κ :=
    match splitFirstSlash model_id with
    | none => .error .invalidModelId
    | some (provider_id, model_name) =>
      if provider_id = "" ∨ model_name = "" ∨ startsWithSlash model_name then
        .error .invalidModelId
      else
        match st'.providers.find? (fun kv => kv.1 == provider_id) with
        | none => .error .unknownProvider
        | some kv =>
          if ¬ kv.2.is_available settings then .error .providerNotConfigured
          else .ok (kv.2.create_client model_name settings)
  (r, st')

/-- `ProviderRegistry.clear`: empty the catalog and reset the loaded
flag. -/
def RegistryState.clear {σ κ : Type} (_ : RegistryState σ κ) :
    RegistryState σ κ :=
  { providers := [], loaded := false }

/-! ## Feedback analyzer
(src/infrastructure/adapters/llm/services/feedback_analyzer.py)

`json.loads` is modelled as an oracle: the vendor response is either not
valid JSON or a `Json` value.  `_parse_feedback` runs inside
`analyze_message`'s `try`, so any exception it raises (attribute/type
errors on unexpectedly-shaped data) is wrapped into
`FeedbackAnalysisError`, exactly like an exception from the network
call; those wrapped causes and the invalid-JSON case are kept as
separate constructors of the single analysis-failure signal. -/

/-- A parsed JSON value. -/
inductive Json where
  | null
  | bool (b : Bool)
  | num (n : Int)
  | str (s : String)
  | arr (elems : List Json)
  | obj (fields : List (String × Json))

/-- Python `dict.get(key, default)` over an insertion-ordered dict with
unique keys. -/
def jsonGet (fields : List (String × Json)) (key : String)
    (default : Json) : Json :=
  match fields.find? (fun kv => kv.1 == key) with
  | some kv => kv.2
  | none => default

/-- Python truthiness of a JSON value (`None`, `False`, `0`, `""`, `[]`,
`{}` are falsy). -/
def jsonTruthy : Json → Bool
  | .null => false
  | .bool b => b
  | .num n => n != 0
  | .str s => s != ""
  | .arr xs => !xs.isEmpty
  | .obj fs => !fs.isEmpty

/-- `LLMFeedbackAnalyzer._normalize_type`: non-strings map to `None`;
strings are lowercased, stripped and looked up in the
grammar/vocabulary/phrasing mapping. -/
def normalizeType : Json → Option CorrectionType
  | .str s =>
    let t := pyStrip (pyLower s)
    if t = "grammar" then some .GRAMMAR
    else if t = "vocabulary" then some .VOCABULARY
    else if t = "phrasing" then some .PHRASING
    else none
  | _ => none

/-- The `Correction(...)` value `_parse_feedback` constructs: `original`
and `corrected` are taken from the payload unchanged (Python does not
coerce them to strings), `explanation` is `.get("explanation", "")`
stripped, which requires a string. -/
structure JsonCorrection where
  original : Json
  corrected : Json
  explanation : String
  correction_type : CorrectionType

/-- One iteration of the corrections loop. `.ok none` means the entry is
silently dropped (`continue`); `.error ()` means the iteration raises
(`entry.get` on a non-dict, `.strip()` on a non-string explanation),
which aborts the whole analysis. -/
def parseCorrectionEntry : Json → Except Unit (Option JsonCorrection)
  | .obj fs =>
    match normalizeType (jsonGet fs "type" .null) with
    | none => .ok none
    | some ct =>
      if ¬ jsonTruthy (jsonGet fs "original" .null)
          ∨ ¬ jsonTruthy (jsonGet fs "corrected" .null) then .ok none
      else
        match jsonGet fs "explanation" (.str "") with
        | .str e =>
          .ok (some
            { original := jsonGet fs "original" .null
              corrected := jsonGet fs "corrected" .null
              explanation := pyStrip e
              correction_type := ct })
        | _ => .error ()
  | _ => .error ()

/-- The corrections loop over the entries of a list payload, in order. -/
def parseCorrectionList : List Json → Except Unit (List JsonCorrection)
  | [] => .ok []
  | e :: rest =>
    match parseCorrectionEntry e with
    | .error u => .error u
    | .ok r =>
      match parseCorrectionList rest with
      | .error u => .error u
      | .ok rs =>
        match r with
        | some c => .ok (c :: rs)
        | none => .ok rs

/-- `for entry in corrections_data` on an arbitrary payload: a list
iterates its elements; a string iterates its characters and a dict its
keys, so any non-empty one raises at the first entry's `.get`; other
shapes raise `TypeError` immediately. -/
def iterateCorrections : Json → Except Unit (List JsonCorrection)
  | .arr es => parseCorrectionList es
  | .str s => if s = "" then .ok [] else .error ()
  | .obj fs => if fs.isEmpty then .ok [] else .error ()
  | _ => .error ()

/-- The pair `_parse_feedback` passes to `Feedback.create` (which adds a
fresh id and timestamp and performs no validation). -/
structure ParsedFeedback where
  corrections : List JsonCorrection
  suggestions : List Json

/-- `LLMFeedbackAnalyzer._parse_feedback`: `data.get("corrections", [])`
drives the filtering loop; `data.get("suggestions", [])` is copied when
it is a list and replaced by `[]` otherwise; a non-dict payload raises
at the first `.get`. -/
def parseFeedback : Json → Except Unit ParsedFeedback
  | .obj fs =>
    match iterateCorrections (jsonGet fs "corrections" (.arr [])) with
    | .error u => .error u
    | .ok cs =>
      .ok { corrections := cs
            suggestions := match jsonGet fs "suggestions" (.arr []) with
                           | .arr xs => xs
                           | _ => [] }
  | _ => .error ()

/-- The single analysis-failure signal (`FeedbackAnalysisError`), with
its cause: top-level JSON decode failure, an exception inside
`_parse_feedback`, or a wrapped exception from the network call. -/
inductive AnalysisError (ε : Type) where
  | invalidJson
  | parseCrash
  | network (e : ε)

/-- `LLMFeedbackAnalyzer.analyze_message` from the client call onward:
`networkResult` is the outcome of `client.complete` — an exception of
abstract type `ε`, or a response whose content either fails
`json.loads` (`none`) or decodes to a `Json` value. -/
def analyzeMessage {ε : Type} (networkResult : Except ε (Option Json)) :
    Except (AnalysisError ε) ParsedFeedback :=
  match networkResult with
  | .error e => .error (.network e)
  | .ok none => .error .invalidJson
  | .ok (some data) =>
    match parseFeedback data with
    | .error () => .error .parseCrash
    | .ok fb => .ok fb

/-! ## Theorems -/

/-- C3: Conversation lifecycle state machine — `archive` succeeds only
from ACTIVE and fails from ARCHIVED and COMPLETED; `restore` succeeds
from ARCHIVED or COMPLETED and fails from ACTIVE; `end` succeeds only
from ACTIVE and fails from COMPLETED and ARCHIVED; every successful
transition sets the target status and updates `updated_at`, and every
rejected transition raises an invariant violation leaving the
conversation unchanged. -/
theorem conversation_lifecycle_transitions (c : Conversation) (now : Nat) :
    (c.status = .ACTIVE →
      c.archive now = .ok { c with status := .ARCHIVED, updated_at := now } ∧
      c.end_ now = .ok { c with status := .COMPLETED, updated_at := now } ∧
      c.restore now = .error .invalidConversationState) ∧
    (c.status = .ARCHIVED →
      c.archive now = .error .invalidConversationState ∧
      c.end_ now = .error .invalidConversationState ∧
      c.restore now = .ok { c with status := .ACTIVE, updated_at := now }) ∧
    (c.status = .COMPLETED →
      c.archive now = .error .invalidConversationState ∧
      c.end_ now = .error .invalidConversationState ∧
      c.restore now = .ok { c with status := .ACTIVE, updated_at := now }) := by
  obtain ⟨id, topic, msgs, ca, ua, status, tone, summ⟩ := c
  cases status <;>
    simp [Conversation.archive, Conversation.restore, Conversation.end_]

/-- Witness for C3 at a concrete conversation in each status. -/
theorem conversation_lifecycle_transitions_witness :
    (Conversation.reconstitute 1 "topic" [] 0 0 .ACTIVE .FRIENDLY none).archive 5 =
      .ok (Conversation.reconstitute 1 "topic" [] 0 5 .ARCHIVED .FRIENDLY none) ∧
    (Conversation.reconstitute 1 "topic" [] 0 5 .ARCHIVED .FRIENDLY none).archive 6 =
      .error .invalidConversationState ∧
    (Conversation.reconstitute 1 "topic" [] 0 0 .COMPLETED .FRIENDLY none).restore 7 =
      .ok (Conversation.reconstitute 1 "topic" [] 0 7 .ACTIVE .FRIENDLY none) :=
  ⟨((conversation_lifecycle_transitions
      (Conversation.reconstitute 1 "topic" [] 0 0 .ACTIVE .FRIENDLY none) 5).1 rfl).1,
   ((conversation_lifecycle_transitions
      (Conversation.reconstitute 1 "topic" [] 0 5 .ARCHIVED .FRIENDLY none) 6).2.1 rfl).1,
   ((conversation_lifecycle_transitions
      (Conversation.reconstitute 1 "topic" [] 0 0 .COMPLETED .FRIENDLY none) 7).2.2 rfl).2.2⟩

/-- C6 counterexample: re-rating with `rating=False` and no comment does
NOT overwrite the prior comment — after
`rate(False, "Initial")` then `rate(False, None)` the comment is still
`"Initial"`, not `None`, contradicting both
"`rate(False, comment=X)` results in `user_comment == X`" and
"re-rating overwrites the prior rating and comment atomically". -/
theorem rate_false_none_retains_comment_counterexample :
    (((Feedback.create [] [] 1 0).rate false (some "Initial")).rate false
        none).user_comment = some "Initial" ∧
    (((Feedback.create [] [] 1 0).rate false (some "Initial")).rate false
        none).user_comment ≠ none := by
  constructor
  · rfl
  · intro h
    simp [Feedback.rate, Feedback.create, strTruthy] at h

/-- C6 (amended): `rate(True, X)` always sets the rating to helpful and
clears the comment regardless of X; `rate(False, X)` sets the rating to
unhelpful and sets `user_comment` to X only when X is a non-empty
comment, otherwise retaining the prior comment; after any rating a
comment can be present only while the rating is unhelpful. -/
theorem rate_semantics (f : Feedback) (X : Option String) :
    ((f.rate true X).user_rating = some true ∧
     (f.rate true X).user_comment = none) ∧
    ((f.rate false X).user_rating = some false ∧
     (f.rate false X).user_comment =
       (if strTruthy X then X else f.user_comment)) ∧
    (∀ r : Bool, (f.rate r X).user_rating = some true →
       (f.rate r X).user_comment = none) := by
  refine ⟨⟨?_, ?_⟩, ⟨?_, ?_⟩, ?_⟩
  · simp [Feedback.rate]
  · simp [Feedback.rate]
  · cases h : strTruthy X <;> simp [Feedback.rate, h]
  · cases h : strTruthy X <;> simp [Feedback.rate, h]
  · intro r
    cases r
    · cases h : strTruthy X <;> simp [Feedback.rate, h]
    · simp [Feedback.rate]

/-- Witness for C6's amended theorem at concrete feedback values. -/
theorem rate_semantics_witness :
    ((Feedback.create [] [] 1 0).rate true (some "ignored")).user_comment
      = none ∧
    ((Feedback.create [] [] 1 0).rate false (some "helpful? no")).user_comment
      = some "helpful? no" ∧
    ((Feedback.create [] [] 1 0).rate true (some "x")).user_comment = none :=
  ⟨(rate_semantics (Feedback.create [] [] 1 0) (some "ignored")).1.2,
   by
    have h := (rate_semantics (Feedback.create [] [] 1 0)
      (some "helpful? no")).2.1.2
    simpa using h,
   (rate_semantics (Feedback.create [] [] 1 0) (some "x")).2.2 true rfl⟩

/-- C9: round-trip — for each entity, feeding every field of a
validating-factory instance into the trusting reconstructor reproduces
an equal entity; and the reconstructor performs no validation or
mutation, so intentionally-invalid stored data (a fluency score of 150,
an empty topic) passes through reconstitution unchanged. -/
theorem reconstitute_round_trip :
    (∀ (topic : String) (tone : ConversationTone) (id now : Nat)
        (c : Conversation),
      Conversation.create topic tone id now = .ok c →
      Conversation.reconstitute c.id c.context_topic c.messages c.created_at
        c.updated_at c.status c.tone c.summary = c) ∧
    (∀ (content : String) (role : MessageRole) (id now : Nat) (m : Message),
      Message.create content role id now = .ok m →
      Message.reconstitute m.id m.content m.role m.created_at m.feedback = m) ∧
    (∀ (cs : List Correction) (ss : List String) (id now : Nat),
      Feedback.reconstitute (Feedback.create cs ss id now).id
          (Feedback.create cs ss id now).corrections
          (Feedback.create cs ss id now).suggestions
          (Feedback.create cs ss id now).created_at
          (Feedback.create cs ss id now).user_rating
          (Feedback.create cs ss id now).user_comment
        = Feedback.create cs ss id now) ∧
    (∀ (score : Int) (st wk : List String) (rem : String) (id now : Nat)
        (s : ConversationSummary),
      ConversationSummary.create score st wk rem id now = .ok s →
      ConversationSummary.reconstitute s.id s.fluency_score s.strengths
        s.weaknesses s.overall_remarks s.created_at = s) ∧
    (ConversationSummary.reconstitute 7 150 [] [] "remarks" 3).fluency_score
      = 150 ∧
    (Conversation.reconstitute 7 "" [] 1 2 .ACTIVE .FRIENDLY none).context_topic
      = "" := by
  refine ⟨?_, ?_, ?_, ?_, rfl, rfl⟩
  · intro topic tone id now c _
    rfl
  · intro content role id now m _
    rfl
  · intro cs ss id now
    rfl
  · intro score st wk rem id now s _
    rfl

/-- Witness for C9 at a concrete conversation produced by the factory. -/
theorem reconstitute_round_trip_witness :
    Conversation.create "coffee shop" .FRIENDLY 5 9 =
      .ok (Conversation.reconstitute 5 "coffee shop" [] 9 9 .ACTIVE
        .FRIENDLY none) ∧
    Conversation.reconstitute 5 "coffee shop" [] 9 9 .ACTIVE .FRIENDLY none =
      Conversation.reconstitute 5 "coffee shop" [] 9 9 .ACTIVE .FRIENDLY none :=
  ⟨by rfl,
   reconstitute_round_trip.1 "coffee shop" .FRIENDLY 5 9
     (Conversation.reconstitute 5 "coffee shop" [] 9 9 .ACTIVE .FRIENDLY none)
     (by rfl)⟩

/-- C1: streaming-turn failure atomicity — for every active conversation
and every provider stream that yields some prefix of fragments and then
raises, `execute_stream` propagates the original exception unwrapped,
appends no coach message, and invokes repository save exactly once (the
user-message commit performed before the provider call), so after the
failure the conversation carries exactly one new message, the user's. -/
theorem execute_stream_failure_atomicity {ε : Type} (conversation : Conversation)
    (input_dto : SendMessageInput) (fragments : List String) (e : ε)
    (uid unow cid cnow : Nat)
    (_hactive : conversation.status = .ACTIVE)
    (hcontent : ¬ (input_dto.content = "" ∨ pyStrip input_dto.content = "")) :
    ∃ userMsg : Message,
      userMsg.role = .USER ∧ userMsg.content = input_dto.content ∧
      executeStream conversation input_dto fragments (some e) uid unow cid cnow =
        { yielded := fragments
          saves := [{ conversation with
                        messages := conversation.messages ++ [userMsg]
                        updated_at := unow }]
          conv := { conversation with
                      messages := conversation.messages ++ [userMsg]
                      updated_at := unow }
          raised := some (.provider e) } := by
  refine ⟨{ id := uid, content := input_dto.content, role := .USER,
            created_at := unow, feedback := none }, rfl, rfl, ?_⟩
  simp [executeStream, Conversation.add_message, Message.create, hcontent]

/-- Witness for C1: topic "coffee shop", stream yields "Hello", " " then
raises; the trace holds the two forwarded fragments, exactly one save,
one new message (the user's) and the unwrapped provider exception. -/
theorem execute_stream_failure_atomicity_witness :
    ¬ ((("Hi there") : String) = "" ∨ pyStrip "Hi there" = "") ∧
    ∃ userMsg : Message,
      userMsg.role = .USER ∧ userMsg.content = "Hi there" ∧
      executeStream
          (Conversation.reconstitute 1 "coffee shop" [] 0 0 .ACTIVE .FRIENDLY none)
          ⟨1, "Hi there"⟩ ["Hello", " "] (some 42) 10 11 12 13 =
        { yielded := ["Hello", " "]
          saves := [{ (Conversation.reconstitute 1 "coffee shop" [] 0 0 .ACTIVE
                        .FRIENDLY none) with
                        messages := [] ++ [userMsg]
                        updated_at := 11 }]
          conv := { (Conversation.reconstitute 1 "coffee shop" [] 0 0 .ACTIVE
                      .FRIENDLY none) with
                      messages := [] ++ [userMsg]
                      updated_at := 11 }
          raised := some (.provider 42) } :=
  ⟨by decide,
   execute_stream_failure_atomicity
     (Conversation.reconstitute 1 "coffee shop" [] 0 0 .ACTIVE .FRIENDLY none)
     ⟨1, "Hi there"⟩ ["Hello", " "] 42 10 11 12 13 rfl (by decide)⟩

/-- C2 counterexample: the claim "if the concatenation of all fragments
is non-empty, exactly one coach message whose content equals it is
appended and save is invoked exactly twice" fails for a whitespace-only
stream: with fragments `[" "]` the concatenation `" "` is non-empty, yet
the coach `Message.create` rejects whitespace-only content, so no coach
message is appended, save runs once, and the content invariant violation
propagates. -/
theorem execute_stream_whitespace_counterexample :
    String.join [" "] ≠ "" ∧
    (executeStream
        (Conversation.reconstitute 1 "coffee shop" [] 0 0 .ACTIVE .FRIENDLY none)
        ⟨1, "Hi"⟩ [" "] (none : Option Unit) 10 11 12 13).saves.length = 1 ∧
    (executeStream
        (Conversation.reconstitute 1 "coffee shop" [] 0 0 .ACTIVE .FRIENDLY none)
        ⟨1, "Hi"⟩ [" "] (none : Option Unit) 10 11 12 13).conv.messages.length
      = 1 ∧
    (executeStream
        (Conversation.reconstitute 1 "coffee shop" [] 0 0 .ACTIVE .FRIENDLY none)
        ⟨1, "Hi"⟩ [" "] (none : Option Unit) 10 11 12 13).raised
      = some (.domain .invalidMessageContent) := by
  refine ⟨by decide, ?_, ?_, ?_⟩ <;> rfl

/-- C2 (amended): on a normally-completing stream the fragments are
forwarded in exact arrival order; if the concatenation of all fragments
is empty, no coach message is created and save runs exactly once; if the
concatenation is non-empty and not whitespace-only, exactly one coach
message carrying the concatenation is appended and save runs exactly
twice (user commit first, coach commit second); if the concatenation is
non-empty but whitespace-only, the Message content invariant rejects the
coach message after the stream: no coach message is appended, save runs
once, and the invariant violation propagates. -/
theorem execute_stream_completion {ε : Type} (conversation : Conversation)
    (input_dto : SendMessageInput) (fragments : List String)
    (uid unow cid cnow : Nat)
    (_hactive : conversation.status = .ACTIVE)
    (hcontent : ¬ (input_dto.content = "" ∨ pyStrip input_dto.content = "")) :
    ∃ userMsg : Message, userMsg.role = .USER ∧
      userMsg.content = input_dto.content ∧
      (executeStream conversation input_dto fragments (none : Option ε)
          uid unow cid cnow).yielded = fragments ∧
      (String.join fragments = "" →
        executeStream conversation input_dto fragments (none : Option ε)
            uid unow cid cnow =
          { yielded := fragments
            saves := [{ conversation with
                          messages := conversation.messages ++ [userMsg]
                          updated_at := unow }]
            conv := { conversation with
                        messages := conversation.messages ++ [userMsg]
                        updated_at := unow }
            raised := none }) ∧
      (pyStrip (String.join fragments) ≠ "" →
        ∃ coachMsg : Message, coachMsg.role = .COACH ∧
          coachMsg.content = String.join fragments ∧
          executeStream conversation input_dto fragments (none : Option ε)
              uid unow cid cnow =
            { yielded := fragments
              saves := [{ conversation with
                            messages := conversation.messages ++ [userMsg]
                            updated_at := unow },
                        { conversation with
                            messages := conversation.messages ++ [userMsg]
                              ++ [coachMsg]
                            updated_at := cnow }]
              conv := { conversation with
                          messages := conversation.messages ++ [userMsg]
                            ++ [coachMsg]
                          updated_at := cnow }
              raised := none }) ∧
      (String.join fragments ≠ "" → pyStrip (String.join fragments) = "" →
        executeStream conversation input_dto fragments (none : Option ε)
            uid unow cid cnow =
          { yielded := fragments
            saves := [{ conversation with
                          messages := conversation.messages ++ [userMsg]
                          updated_at := unow }]
            conv := { conversation with
                        messages := conversation.messages ++ [userMsg]
                        updated_at := unow }
            raised := some (.domain .invalidMessageContent) }) := by
  refine ⟨{ id := uid, content := input_dto.content, role := .USER,
            created_at := unow, feedback := none }, rfl, rfl, ?_, ?_, ?_, ?_⟩
  · by_cases hj : String.join fragments = ""
    · simp [executeStream, Conversation.add_message, Message.create, hcontent,
        hj]
    · by_cases hw : pyStrip (String.join fragments) = ""
      · simp [executeStream, Conversation.add_message, Message.create,
          hcontent, hj, hw]
      · simp [executeStream, Conversation.add_message, Message.create,
          hcontent, hj, hw]
  · intro hempty
    simp [executeStream, Conversation.add_message, Message.create, hcontent,
      hempty]
  · intro hsolid
    have hne : String.join fragments ≠ "" := by
      intro h
      apply hsolid
      rw [h]
      rfl
    refine ⟨{ id := cid, content := String.join fragments, role := .COACH,
              created_at := cnow, feedback := none }, rfl, rfl, ?_⟩
    simp [executeStream, Conversation.add_message, Message.create, hcontent,
      hne, hsolid]
  · intro hne hws
    simp [executeStream, Conversation.add_message, Message.create, hcontent,
      hne, hws]

/-- Witness for C2's amended theorem: the spec's concrete scenario —
topic "coffee shop", stream `["Hello", " ", "World"]` completing
normally — ends with two saves and a coach message "Hello World". -/
theorem execute_stream_completion_witness :
    (executeStream
        (Conversation.reconstitute 1 "coffee shop" [] 0 0 .ACTIVE .FRIENDLY none)
        ⟨1, "Hi there"⟩ ["Hello", " ", "World"] (none : Option Unit)
        10 11 12 13).saves.length = 2 ∧
    (executeStream
        (Conversation.reconstitute 1 "coffee shop" [] 0 0 .ACTIVE .FRIENDLY none)
        ⟨1, "Hi there"⟩ ["Hello", " ", "World"] (none : Option Unit)
        10 11 12 13).conv.messages.map Message.content
      = ["Hi there", "Hello World"] := by
  obtain ⟨userMsg, hrole, hcontent, -, -, hsolid, -⟩ :=
    execute_stream_completion
      (Conversation.reconstitute 1 "coffee shop" [] 0 0 .ACTIVE .FRIENDLY none)
      ⟨1, "Hi there"⟩ ["Hello", " ", "World"] (ε := Unit) 10 11 12 13 rfl
      (by decide)
  obtain ⟨coachMsg, hcrole, hccontent, heq⟩ := hsolid (by decide)
  rw [heq]
  refine ⟨rfl, ?_⟩
  simp [hcontent, hccontent]
  rfl

/-- C10: synchronous-turn persistence is all-or-nothing — in `execute`
the single repository save happens only after the partner call returns
successfully: if the partner raises, save is never invoked and the user
message of the failed turn is not persisted at all, in contrast to the
streaming path which commits the user message before the provider
call. -/
theorem execute_sync_all_or_nothing {ε : Type} (conversation : Conversation)
    (input_dto : SendMessageInput) (uid unow cid cnow : Nat) :
    (∀ e : ε,
      (executeSync conversation input_dto (.error e) uid unow cid cnow).saves
        = []) ∧
    (∀ r : Except ε String,
      (executeSync conversation input_dto r uid unow cid cnow).saves ≠ [] →
      ∃ s, r = .ok s) ∧
    (∀ (e : ε) (fragments : List String),
      ¬ (input_dto.content = "" ∨ pyStrip input_dto.content = "") →
      (executeStream conversation input_dto fragments (some e)
          uid unow cid cnow).saves.length = 1) := by
  refine ⟨?_, ?_, ?_⟩
  · intro e
    cases hm : Message.create input_dto.content .USER uid unow <;>
      simp [executeSync, Conversation.add_message, hm]
  · intro r hne
    cases hm : Message.create input_dto.content .USER uid unow
    · simp [executeSync, Conversation.add_message, hm] at hne
    · cases r with
      | error e => simp [executeSync, Conversation.add_message, hm] at hne
      | ok s => exact ⟨s, rfl⟩
  · intro e fragments hcontent
    simp [executeStream, Conversation.add_message, Message.create, hcontent]

/-- Witness for C10: with a failing partner nothing is saved, while the
streaming path with a failing stream still performed its one
user-message commit. -/
theorem execute_sync_all_or_nothing_witness :
    (executeSync
        (Conversation.reconstitute 1 "coffee shop" [] 0 0 .ACTIVE .FRIENDLY none)
        ⟨1, "Hi there"⟩ (.error 42) 10 11 12 13).saves = [] ∧
    (executeStream
        (Conversation.reconstitute 1 "coffee shop" [] 0 0 .ACTIVE .FRIENDLY none)
        ⟨1, "Hi there"⟩ ["Hello"] (some 42) 10 11 12 13).saves.length = 1 :=
  ⟨(execute_sync_all_or_nothing
      (Conversation.reconstitute 1 "coffee shop" [] 0 0 .ACTIVE .FRIENDLY none)
      ⟨1, "Hi there"⟩ 10 11 12 13).1 42,
   (execute_sync_all_or_nothing
      (Conversation.reconstitute 1 "coffee shop" [] 0 0 .ACTIVE .FRIENDLY none)
      ⟨1, "Hi there"⟩ 10 11 12 13).2.2 42 ["Hello"] (by decide)⟩

/-- C7 counterexample: the Feedback Analyzer is NOT invoked only for
USER-authored messages without existing feedback — `request` calls
`analyze_message` on the located message before `attach_feedback`'s
check, so for a conversation whose only message is COACH-authored the
analyzer is invoked once even though the operation then fails with the
Message invariant violation and nothing is persisted. -/
theorem request_analyzer_on_coach_counterexample :
    (requestFeedback
        (Conversation.reconstitute 2 "topic"
          [Message.reconstitute 1 "Hello! How can I help?" .COACH 0 none]
          0 0 .ACTIVE .FRIENDLY none)
        1 (fun _ => (.ok (Feedback.create [] [] 3 0) : Except Unit Feedback))
      ).analyzer_calls
      = [Message.reconstitute 1 "Hello! How can I help?" .COACH 0 none] ∧
    (Message.reconstitute 1 "Hello! How can I help?" .COACH 0 none).role
      = .COACH ∧
    (requestFeedback
        (Conversation.reconstitute 2 "topic"
          [Message.reconstitute 1 "Hello! How can I help?" .COACH 0 none]
          0 0 .ACTIVE .FRIENDLY none)
        1 (fun _ => (.ok (Feedback.create [] [] 3 0) : Except Unit Feedback))
      ).result = .error (.domain .invalidMessageContent) ∧
    (requestFeedback
        (Conversation.reconstitute 2 "topic"
          [Message.reconstitute 1 "Hello! How can I help?" .COACH 0 none]
          0 0 .ACTIVE .FRIENDLY none)
        1 (fun _ => (.ok (Feedback.create [] [] 3 0) : Except Unit Feedback))
      ).saves = [] := by
  refine ⟨rfl, rfl, rfl, rfl⟩

/-- C7 (amended): `request` invokes the analyzer on every located
message, before the Message entity's invariant check; when the located
message is not USER-authored or already carries feedback the operation
fails with the Message invariant violation and the conversation is not
persisted (the analyzer having already been called); an analyzer failure
propagates without persistence; on success the produced feedback is
attached exactly once and the conversation is saved. -/
theorem request_feedback_spec {ε : Type} (conversation : Conversation)
    (message_id : Nat) (analyzer : Message → Except ε Feedback)
    (message : Message)
    (hfind : conversation.messages.find? (fun m => m.id == message_id)
      = some message) :
    (requestFeedback conversation message_id analyzer).analyzer_calls
      = [message] ∧
    (∀ fb, analyzer message = .ok fb →
      (message.role ≠ .USER ∨ message.feedback.isSome) →
      (requestFeedback conversation message_id analyzer).result
          = .error (.domain .invalidMessageContent) ∧
      (requestFeedback conversation message_id analyzer).saves = []) ∧
    (∀ e, analyzer message = .error e →
      (requestFeedback conversation message_id analyzer).result
          = .error (.provider e) ∧
      (requestFeedback conversation message_id analyzer).saves = []) ∧
    (∀ fb, analyzer message = .ok fb → message.role = .USER →
      message.feedback = none →
      (requestFeedback conversation message_id analyzer).result = .ok fb ∧
      (requestFeedback conversation message_id analyzer).saves =
        [{ conversation with
             messages := replaceFirst (fun m => m.id == message_id)
               { message with feedback := some fb } conversation.messages }]) := by
  refine ⟨?_, ?_, ?_, ?_⟩
  · cases ha : analyzer message
    · simp [requestFeedback, hfind, ha]
    · rename_i fb
      cases hat : message.attach_feedback fb <;>
        simp [requestFeedback, hfind, ha, hat]
  · intro fb ha hbad
    have hat : message.attach_feedback fb
        = .error .invalidMessageContent := by
      rcases hbad with h | h
      · simp [Message.attach_feedback, h]
      · by_cases hr : message.role = .USER
        · simp [Message.attach_feedback, hr, h]
        · simp [Message.attach_feedback, hr]
    refine ⟨?_, ?_⟩ <;> simp [requestFeedback, hfind, ha, hat]
  · intro e ha
    refine ⟨?_, ?_⟩ <;> simp [requestFeedback, hfind, ha]
  · intro fb ha hrole hnofb
    have hat : message.attach_feedback fb
        = .ok { message with feedback := some fb } := by
      simp [Message.attach_feedback, hrole, hnofb]
    refine ⟨?_, ?_⟩ <;> simp [requestFeedback, hfind, ha, hat]

/-- Witness for C7's amended theorem: the success path on a one-message
conversation with a USER message and a succeeding analyzer — the
feedback is attached and the conversation saved. -/
theorem request_feedback_spec_witness :
    (requestFeedback
        (Conversation.reconstitute 2 "topic"
          [Message.reconstitute 1 "I goes home" .USER 0 none]
          0 0 .ACTIVE .FRIENDLY none)
        1 (fun _ => (.ok (Feedback.create [] [] 3 0) : Except Unit Feedback))
      ).result = .ok (Feedback.create [] [] 3 0) ∧
    (requestFeedback
        (Conversation.reconstitute 2 "topic"
          [Message.reconstitute 1 "I goes home" .USER 0 none]
          0 0 .ACTIVE .FRIENDLY none)
        1 (fun _ => (.ok (Feedback.create [] [] 3 0) : Except Unit Feedback))
      ).saves =
      [Conversation.reconstitute 2 "topic"
        [Message.reconstitute 1 "I goes home" .USER 0
          (some (Feedback.create [] [] 3 0))]
        0 0 .ACTIVE .FRIENDLY none] := by
  have h := (request_feedback_spec
    (Conversation.reconstitute 2 "topic"
      [Message.reconstitute 1 "I goes home" .USER 0 none]
      0 0 .ACTIVE .FRIENDLY none)
    1 (fun _ => (.ok (Feedback.create [] [] 3 0) : Except Unit Feedback))
    (Message.reconstitute 1 "I goes home" .USER 0 none) rfl).2.2.2
    (Feedback.create [] [] 3 0) rfl rfl rfl
  exact ⟨h.1, by rw [h.2]; rfl⟩

/-- C8 counterexample: a valid JSON object payload containing neither a
`corrections` nor a `suggestions` key does NOT fail — `analyze_message`
succeeds with empty corrections and suggestions, because
`_parse_feedback` reads both keys with `.get(key, [])` defaults, so
"does not contain the required corrections and suggestions arrays" is
not a failure condition. -/
theorem analyze_missing_arrays_counterexample :
    analyzeMessage (.ok (some (.obj [])) : Except Unit (Option Json))
      = .ok { corrections := [], suggestions := [] } := rfl

/-- C8 (amended): `analyze_message` fails with the analysis-failure
signal when the top-level payload is not valid JSON and when any
exception occurs during the network call; a payload missing the
corrections or suggestions arrays is not an error (the missing array
defaults to empty); each correction entry is kept iff its type field
normalizes case-insensitively to grammar/vocabulary/phrasing and both
its original and corrected fields are non-empty, entries failing either
check are silently dropped, and the kept corrections preserve the
payload's order. -/
theorem analyze_message_parsing {ε : Type}
    (networkResult : Except ε (Option Json)) :
    (∀ e, networkResult = .error e →
      analyzeMessage networkResult = .error (.network e)) ∧
    (networkResult = .ok none →
      analyzeMessage networkResult = .error .invalidJson) ∧
    (∀ fs : List (String × Json),
      fs.find? (fun kv => kv.1 == "corrections") = none →
      fs.find? (fun kv => kv.1 == "suggestions") = none →
      analyzeMessage (.ok (some (.obj fs)) : Except ε (Option Json))
        = .ok { corrections := [], suggestions := [] }) ∧
    (∀ fs : List (String × Json),
      (normalizeType (jsonGet fs "type" .null) = none
        ∨ jsonTruthy (jsonGet fs "original" .null) = false
        ∨ jsonTruthy (jsonGet fs "corrected" .null) = false) →
      parseCorrectionEntry (.obj fs) = .ok none) ∧
    (∀ (fs : List (String × Json)) (ct : CorrectionType) (e : String),
      normalizeType (jsonGet fs "type" .null) = some ct →
      jsonTruthy (jsonGet fs "original" .null) = true →
      jsonTruthy (jsonGet fs "corrected" .null) = true →
      jsonGet fs "explanation" (.str "") = .str e →
      parseCorrectionEntry (.obj fs) =
        .ok (some
          { original := jsonGet fs "original" .null
            corrected := jsonGet fs "corrected" .null
            explanation := pyStrip e
            correction_type := ct })) ∧
    (∀ (entry : Json) (es : List Json) (cs : List JsonCorrection),
      parseCorrectionList (entry :: es) = .ok cs →
      ∃ (r : Option JsonCorrection) (cs' : List JsonCorrection),
        parseCorrectionEntry entry = .ok r ∧
        parseCorrectionList es = .ok cs' ∧
        cs = (match r with | some c => c :: cs' | none => cs')) := by
  refine ⟨?_, ?_, ?_, ?_, ?_, ?_⟩
  · intro e he
    rw [he]
    rfl
  · intro he
    rw [he]
    rfl
  · intro fs hc hs
    simp [analyzeMessage, parseFeedback, jsonGet, hc, hs, iterateCorrections,
      parseCorrectionList]
  · intro fs hdrop
    rcases hdrop with h | h | h
    · simp [parseCorrectionEntry, h]
    · cases hn : normalizeType (jsonGet fs "type" .null) <;>
        simp [parseCorrectionEntry, hn, h]
    · cases hn : normalizeType (jsonGet fs "type" .null) <;>
        simp [parseCorrectionEntry, hn, h]
  · intro fs ct e hn ho hc he
    simp [parseCorrectionEntry, hn, ho, hc, he]
  · intro entry es cs h
    cases hr : parseCorrectionEntry entry with
    | error u => simp [parseCorrectionList, hr] at h
    | ok r =>
      cases hl : parseCorrectionList es with
      | error u => simp [parseCorrectionList, hr, hl] at h
      | ok cs' =>
        refine ⟨r, cs', rfl, rfl, ?_⟩
        cases r <;> simp [parseCorrectionList, hr, hl] at h <;> exact h.symm

/-- Witness for C8's amended theorem: the spec's concrete scenario —
mixed-case `"GRAMMAR"` with non-empty fields is kept and normalizes to
GRAMMAR, `"unknown"` type is dropped, empty `original` is dropped;
of four such entries exactly the valid ones remain, in payload order —
together with the network-failure case. -/
theorem analyze_message_parsing_witness :
    analyzeMessage (.error 7 : Except Nat (Option Json))
      = .error (.network 7) ∧
    parseCorrectionList
      [Json.obj [("type", Json.str "GRAMMAR"), ("original", Json.str "go"),
        ("corrected", Json.str "went")],
       Json.obj [("type", Json.str "unknown"), ("original", Json.str "a"),
        ("corrected", Json.str "b")],
       Json.obj [("type", Json.str "grammar"), ("original", Json.str ""),
        ("corrected", Json.str "b")],
       Json.obj [("type", Json.str "Vocabulary"), ("original", Json.str "a"),
        ("corrected", Json.str "b")]]
      = .ok
        [{ original := Json.str "go", corrected := Json.str "went",
           explanation := "", correction_type := .GRAMMAR },
         { original := Json.str "a", corrected := Json.str "b",
           explanation := "", correction_type := .VOCABULARY }] :=
  ⟨(analyze_message_parsing (.error 7 : Except Nat (Option Json))).1 7 rfl,
   by rfl⟩

/-- Soundness of the first-slash split: a successful split decomposes
the input at a slash and the prefix contains no slash — i.e. the split
happens at the FIRST `/`. -/
theorem splitFirstSlashAux_sound : ∀ (l a b : List Char),
    splitFirstSlashAux l = some (a, b) → l = a ++ '/' :: b ∧ '/' ∉ a := by
  intro l
  induction l with
  | nil => intro a b h; simp [splitFirstSlashAux] at h
  | cons c cs ih =>
    intro a b h
    by_cases hc : c = '/'
    · subst hc
      simp [splitFirstSlashAux] at h
      obtain ⟨ha, hb⟩ := h
      subst ha
      subst hb
      simp
    · rw [splitFirstSlashAux, if_neg hc] at h
      cases hcs : splitFirstSlashAux cs with
      | none => rw [hcs] at h; simp at h
      | some p =>
        obtain ⟨a', b'⟩ := p
        rw [hcs] at h
        simp at h
        obtain ⟨ha, hb⟩ := h
        obtain ⟨heq, hmem⟩ := ih a' b' hcs
        subst hb
        rw [← ha, heq]
        refine ⟨rfl, ?_⟩
        simp [hmem, Ne.symm hc]

/-- A failed first-slash split means the input contains no slash. -/
theorem splitFirstSlashAux_none : ∀ l : List Char,
    splitFirstSlashAux l = none → '/' ∉ l := by
  intro l
  induction l with
  | nil => intro _; simp
  | cons c cs ih =>
    intro h
    by_cases hc : c = '/'
    · subst hc; simp [splitFirstSlashAux] at h
    · rw [splitFirstSlashAux, if_neg hc] at h
      cases hcs : splitFirstSlashAux cs with
      | none => simp [Ne.symm hc, ih hcs]
      | some p => rw [hcs] at h; simp at h

/-- C4: model-id parsing in `create_client` — the id is split on the
first `/` only; the call raises a configuration failure when there is no
`/`, the provider segment is empty, the remainder is empty or itself
begins with `/`, the provider id is not registered, or the registered
provider is unavailable; otherwise it delegates to the provider's
factory with the full remainder, so `"a/b/c"` passes model name
`"b/c"`. -/
theorem create_client_spec {σ κ : Type} (st : RegistryState σ κ)
    (modules : List (ProviderModule σ κ)) (model_id : String)
    (settings : σ) :
    (∀ pid rest, splitFirstSlash model_id = some (pid, rest) →
      model_id.data = pid.data ++ '/' :: rest.data ∧ '/' ∉ pid.data) ∧
    (splitFirstSlash model_id = none → '/' ∉ model_id.data ∧
      (createClient st modules model_id settings).1
        = .error .invalidModelId) ∧
    (∀ pid rest, splitFirstSlash model_id = some (pid, rest) →
      (pid = "" ∨ rest = "" ∨ startsWithSlash rest = true) →
      (createClient st modules model_id settings).1
        = .error .invalidModelId) ∧
    (∀ pid rest, splitFirstSlash model_id = some (pid, rest) →
      ¬ (pid = "" ∨ rest = "" ∨ startsWithSlash rest = true) →
      ((ensureLoaded st modules).providers.find? (fun kv => kv.1 == pid)
          = none →
        (createClient st modules model_id settings).1
          = .error .unknownProvider) ∧
      (∀ k p, (ensureLoaded st modules).providers.find?
            (fun kv => kv.1 == pid) = some (k, p) →
        (p.is_available settings = false →
          (createClient st modules model_id settings).1
            = .error .providerNotConfigured) ∧
        (p.is_available settings = true →
          (createClient st modules model_id settings).1
            = .ok (p.create_client rest settings)))) ∧
    splitFirstSlash "a/b/c" = some ("a", "b/c") := by
  refine ⟨?_, ?_, ?_, ?_, by rfl⟩
  · intro pid rest hsplit
    simp [splitFirstSlash] at hsplit
    obtain ⟨a, b, hab, ha, hb⟩ := hsplit
    obtain ⟨heq, hmem⟩ := splitFirstSlashAux_sound model_id.data a b hab
    subst ha
    subst hb
    exact ⟨heq, hmem⟩
  · intro hnone
    simp [splitFirstSlash] at hnone
    refine ⟨splitFirstSlashAux_none model_id.data hnone, ?_⟩
    simp [createClient, splitFirstSlash, hnone]
  · intro pid rest hsplit hbad
    simp [createClient, hsplit, hbad]
  · intro pid rest hsplit hbad
    refine ⟨?_, ?_⟩
    · intro hfind
      simp [createClient, hsplit, hbad, hfind]
    · intro k p hfind
      refine ⟨?_, ?_⟩ <;> intro hav <;>
        simp [createClient, hsplit, hbad, hfind, hav]

/-- Witness for C4 on a one-provider registry: `"a/b/c"` succeeds and
the factory receives model name `"b/c"`; an unregistered provider id is
a distinct configuration failure. -/
theorem create_client_spec_witness :
    splitFirstSlash "a/b/c" = some ("a", "b/c") ∧
    (createClient
        (⟨[("a", ⟨"a", "A", fun _ => true, [], fun m _ => m⟩)], true⟩
          : RegistryState Unit String)
        [] "a/b/c" ()).1 = .ok "b/c" ∧
    (createClient
        (⟨[("a", ⟨"a", "A", fun _ => true, [], fun m _ => m⟩)], true⟩
          : RegistryState Unit String)
        [] "bogus/x" ()).1 = .error .unknownProvider := by
  refine ⟨rfl, ?_, ?_⟩
  · exact (((create_client_spec
      (⟨[("a", ⟨"a", "A", fun _ => true, [], fun m _ => m⟩)], true⟩
        : RegistryState Unit String)
      [] "a/b/c" ()).2.2.2.1 "a" "b/c" rfl (by decide)).2
      "a" ⟨"a", "A", fun _ => true, [], fun m _ => m⟩ rfl).2 rfl
  · exact ((create_client_spec
      (⟨[("a", ⟨"a", "A", fun _ => true, [], fun m _ => m⟩)], true⟩
        : RegistryState Unit String)
      [] "bogus/x" ()).2.2.2.1 "bogus" "x" rfl (by decide)).1 rfl

/-- C5: registry lazy loading is once-only and failure-tolerant —
discovery runs during the first read only and later reads perform no
loading; a module that raises is caught individually, aborts no other
module's registrations and does not prevent the loaded flag; `clear`
empties the catalog and resets the flag so the next read re-runs
discovery. -/
theorem registry_lazy_loading {σ κ : Type} (st : RegistryState σ κ)
    (modules modules' : List (ProviderModule σ κ)) (settings : σ)
    (capability : Option ModelCapability) (pid model_id : String) :
    (ensureLoaded st modules).loaded = true ∧
    (st.loaded = true → ensureLoaded st modules' = st) ∧
    ensureLoaded (ensureLoaded st modules) modules' = ensureLoaded st modules ∧
    (getRegisteredProviders (ensureLoaded st modules) modules').2
      = ensureLoaded st modules ∧
    (isProviderRegistered (ensureLoaded st modules) modules' pid).2
      = ensureLoaded st modules ∧
    (getAvailableModels (ensureLoaded st modules) modules' settings
        capability).2 = ensureLoaded st modules ∧
    (createClient (ensureLoaded st modules) modules' model_id settings).2
      = ensureLoaded st modules ∧
    (∀ (ms1 ms2 : List (ProviderModule σ κ)) (regs : List (Provider σ κ)),
      ensureLoaded st (ms1 ++ { regs := regs, raises := true } :: ms2) =
        ensureLoaded st (ms1 ++ { regs := regs, raises := false } :: ms2)) ∧
    (st.clear.providers = [] ∧ st.clear.loaded = false ∧
      ensureLoaded st.clear modules =
        { providers := modules.foldl (fun ps m => loadModule ps m.regs) []
          loaded := true }) := by
  have hload : ∀ (t : RegistryState σ κ) (ms : List (ProviderModule σ κ)),
      (ensureLoaded t ms).loaded = true := by
    intro t ms
    by_cases h : t.loaded = true <;> simp [ensureLoaded, h]
  have hnoop : ∀ (t : RegistryState σ κ) (ms : List (ProviderModule σ κ)),
      t.loaded = true → ensureLoaded t ms = t := by
    intro t ms h
    simp [ensureLoaded, h]
  refine ⟨hload st modules, hnoop st modules',
    hnoop (ensureLoaded st modules) modules' (hload st modules),
    ?_, ?_, ?_, ?_, ?_, rfl, rfl, ?_⟩
  · simp [getRegisteredProviders,
      hnoop (ensureLoaded st modules) modules' (hload st modules)]
  · simp [isProviderRegistered,
      hnoop (ensureLoaded st modules) modules' (hload st modules)]
  · simp [getAvailableModels,
      hnoop (ensureLoaded st modules) modules' (hload st modules)]
  · simp [createClient,
      hnoop (ensureLoaded st modules) modules' (hload st modules)]
  · intro ms1 ms2 regs
    by_cases h : st.loaded = true <;>
      simp [ensureLoaded, h, List.foldl_append]
  · simp [RegistryState.clear, ensureLoaded]

/-- Witness for C5 at concrete registry states: a first read marks the
registry loaded, and a read on a loaded registry is a no-op. -/
theorem registry_lazy_loading_witness :
    (ensureLoaded (⟨[], false⟩ : RegistryState Unit Unit) []).loaded = true ∧
    ensureLoaded (⟨[], true⟩ : RegistryState Unit Unit) [] =
      (⟨[], true⟩ : RegistryState Unit Unit) :=
  ⟨(registry_lazy_loading (⟨[], false⟩ : RegistryState Unit Unit)
      [] [] () none "" "").1,
   (registry_lazy_loading (⟨[], true⟩ : RegistryState Unit Unit)
      [] [] () none "" "").2.1 rfl⟩

end LanguageCoach
